import Mathlib

/-!
# Verification of the sabah-pol-locator odometer-tracking core

Shallow embedding of the receipt-history store, vehicle-metrics engine,
duplicate guard, trip calculator and submission orchestrator of the
`sabah-pol-locator` repository (files `src/lib/receipt-history.ts`,
`src/lib/api.ts`, `src/components/ReceiptCapture.tsx`,
`src/components/Sidebar.tsx`), together with proofs of the specified
properties.

Modelling conventions:
* JavaScript numbers are modelled as exact rationals `ℚ` (the programs only
  add, subtract, divide and round them).
* ISO-8601 timestamp strings are modelled by the epoch-millisecond integer
  they denote (`new Date(s).getTime()`), since the code only ever uses them
  through that conversion.
* `localStorage` state is passed explicitly; stateful functions become
  functions of the store contents.
* Thrown JavaScript exceptions are modelled with `Except String`.
-/

set_option autoImplicit false

namespace PolLocator

/- Batteries marks the `Rat` arithmetic operations `@[irreducible]`, which
blocks `decide`-style evaluation of the executable definitions below on
concrete inputs; restore the default reducibility. -/
attribute [local semireducible] Rat.add Rat.sub Rat.mul Rat.inv Rat.ofScientific

/-- JS `s.trim()`: strip surrounding whitespace, written over the character
list so that it evaluates by kernel reduction. -/
def jsTrim (s : String) : String :=
  ⟨((s.data.dropWhile Char.isWhitespace).reverse.dropWhile
      Char.isWhitespace).reverse⟩

/-- JS normalization used for all vehicle-registration keys:
`s.trim().toUpperCase()` (receipt-history.ts lines 52, 68). -/
def normalizeReg (s : String) : String :=
  ⟨(jsTrim s).data.map Char.toUpper⟩

/-- `aiVerification` field of the capture-revision `ReceiptResponse`
(api.ts). The status literal union is modelled as `String`. -/
structure AiVerification where
  enabled : Bool
  status : String
  deriving Repr, DecidableEq

/-- `ReceiptResponse` (api.ts, capture revision). The status literal type is
modelled as `String` because persisted histories may hold statuses from other
protocol revisions (e.g. `"Processed"`, checked by Sidebar.tsx). -/
structure ReceiptResponse where
  success : Bool
  receiptId : String
  status : String
  message : String
  verificationStatus : String
  aiVerification : AiVerification
  imageUrl : Option String
  deriving Repr, DecidableEq

/-- `ManualReceiptData` (api.ts). `number` fields are `ℚ`,
`... | null` fields are `Option`s. -/
structure ManualReceiptData where
  receiptNo : Option String
  dateOnReceipt : Option String
  fuelType : Option String
  litres : ℚ
  amount : ℚ
  pricePerLitre : Option ℚ
  vehicleReg : String
  odometerCurrent : ℚ
  odometerPrevious : Option ℚ
  distance : Option ℚ
  fuelEfficiency : Option ℚ
  deriving Repr, DecidableEq

/-- `ReceiptHistoryEntry` (receipt-history.ts lines 6-17).
`timestampMs` is the epoch-millisecond value of the ISO `timestamp` string.
`vehicleReg` is `Option String` because consumers access it with optional
chaining (`entry.vehicleReg?.…`), i.e. a persisted entry may lack it. -/
structure ReceiptHistoryEntry where
  id : String
  timestampMs : Int
  station : String
  kodLokasi : String
  region : String
  submittedBy : String
  vehicleReg : Option String
  odometerCurrent : Option ℚ
  manualData : ManualReceiptData
  response : ReceiptResponse
  deriving Repr, DecidableEq

/-- `MAX_ENTRIES` (receipt-history.ts line 4). -/
def MAX_ENTRIES : Nat := 50

/-- `addReceiptToHistory` (receipt-history.ts lines 29-40), acting on an
explicit store state (most-recent-first list). The generated
`id = Date.now() + random suffix` is passed in as `newId`. -/
def addReceiptToHistory (newId : String) (entry : ReceiptHistoryEntry)
    (history : List ReceiptHistoryEntry) : List ReceiptHistoryEntry :=
  let newEntry : ReceiptHistoryEntry := { entry with id := newId }
  let h := newEntry :: history
  if MAX_ENTRIES < h.length then h.take MAX_ENTRIES else h

/-- The stored form of an append request: the entry with its fresh id. -/
def mkStoredEntry (it : String × ReceiptHistoryEntry) : ReceiptHistoryEntry :=
  { it.2 with id := it.1 }

/-- Appending a whole sequence of (id, entry) requests, oldest first. -/
def appendAll (items : List (String × ReceiptHistoryEntry))
    (history : List ReceiptHistoryEntry) : List ReceiptHistoryEntry :=
  items.foldl (fun h it => addReceiptToHistory it.1 it.2 h) history

theorem addReceiptToHistory_eq_take (newId : String) (entry : ReceiptHistoryEntry)
    (history : List ReceiptHistoryEntry) :
    addReceiptToHistory newId entry history
      = ({ entry with id := newId } :: history).take MAX_ENTRIES := by
  unfold addReceiptToHistory
  dsimp only
  split
  · rfl
  · next hlen =>
    exact (List.take_of_length_le (Nat.le_of_not_lt hlen)).symm

theorem take_append_take {α : Type} (l t : List α) (n : Nat) :
    (l ++ t.take n).take n = (l ++ t).take n := by
  simp only [List.take_append_eq_append_take, List.take_take]
  rw [Nat.min_eq_left (Nat.sub_le n l.length)]

theorem appendAll_eq_take (items : List (String × ReceiptHistoryEntry)) :
    ∀ history : List ReceiptHistoryEntry, history.length ≤ MAX_ENTRIES →
      appendAll items history
        = ((items.map mkStoredEntry).reverse ++ history).take MAX_ENTRIES := by
  induction items with
  | nil =>
    intro history hlen
    simp [appendAll, List.take_of_length_le hlen]
  | cons it items ih =>
    intro history hlen
    have hstep : appendAll (it :: items) history
        = appendAll items (addReceiptToHistory it.1 it.2 history) := rfl
    rw [hstep, addReceiptToHistory_eq_take,
      ih _ (by simp [List.length_take_le])]
    have : (mkStoredEntry it :: history)
        = [mkStoredEntry it] ++ history := rfl
    rw [show ({ it.2 with id := it.1 } :: history) = mkStoredEntry it :: history from rfl,
      this, take_append_take ((items.map mkStoredEntry).reverse) ([mkStoredEntry it] ++ history)]
    simp [List.append_assoc]

/-- JS `Math.round` on an exact rational: round half toward `+∞`. -/
def jsRound (q : ℚ) : Int :=
  (q + 1/2).floor

/-- The match predicate used by both vehicle-metric functions
(receipt-history.ts lines 54 and 72):
`entry.vehicleReg?.trim().toUpperCase() === normalized && entry.odometerCurrent != null`.
A missing/null `vehicleReg` makes the optional chain `undefined`, which is
never strictly equal to the string `normalized`. -/
def entryMatchesVehicle (normalized : String) (e : ReceiptHistoryEntry) : Bool :=
  (match e.vehicleReg with
   | some r => normalizeReg r == normalized
   | none => false) && e.odometerCurrent.isSome

/-- The `for (const entry of history)` loop of `getLastOdometerForVehicle`
(receipt-history.ts lines 53-57). -/
def lastOdometerLoop (normalized : String) : List ReceiptHistoryEntry → Option ℚ
  | [] => none
  | e :: rest =>
    if entryMatchesVehicle normalized e then e.odometerCurrent
    else lastOdometerLoop normalized rest

/-- `getLastOdometerForVehicle` (receipt-history.ts lines 50-59), with the
store contents passed explicitly. -/
def getLastOdometerForVehicle (history : List ReceiptHistoryEntry)
    (vehicleReg : String) : Option ℚ :=
  lastOdometerLoop (normalizeReg vehicleReg) history

/-- The `readings` list of `getAverageDistanceForVehicle`
(receipt-history.ts lines 71-73): matching entries, most recent first,
mapped to their (present, by the filter) `odometerCurrent`. -/
def vehicleReadings (history : List ReceiptHistoryEntry) (normalized : String) :
    List ℚ :=
  (history.filter (entryMatchesVehicle normalized)).filterMap
    (fun e => e.odometerCurrent)

/-- The distance-collecting loop of `getAverageDistanceForVehicle`
(receipt-history.ts lines 78-82): adjacent differences `newer - older`,
keeping only the strictly positive ones, in order. -/
def positiveDiffs : List ℚ → List ℚ
  | a :: b :: rest =>
    let dist := a - b
    if 0 < dist then dist :: positiveDiffs (b :: rest) else positiveDiffs (b :: rest)
  | _ => []

/-- `getAverageDistanceForVehicle` (receipt-history.ts lines 66-88).
The result of `Math.round` is an integer, hence `Option ℤ`. -/
def getAverageDistanceForVehicle (history : List ReceiptHistoryEntry)
    (vehicleReg : String) : Option ℤ :=
  let normalized := normalizeReg vehicleReg
  let readings := vehicleReadings history normalized
  if readings.length < 2 then none
  else
    let distances := positiveDiffs readings
    if distances.length = 0 then none
    else some (jsRound (distances.sum / (distances.length : ℚ)))

/-- `length_filterMap` when every element maps to `some`. -/
theorem length_filterMap_of_isSome {α β : Type} (f : α → Option β) :
    ∀ l : List α, (∀ e ∈ l, (f e).isSome) → (l.filterMap f).length = l.length := by
  intro l
  induction l with
  | nil => intro _; rfl
  | cons a l ih =>
    intro h
    have ha : (f a).isSome := h a (List.mem_cons_self a l)
    obtain ⟨b, hb⟩ := Option.isSome_iff_exists.mp ha
    rw [List.filterMap_cons, hb]
    simp only [List.length_cons]
    rw [ih (fun e he => h e (List.mem_cons_of_mem a he))]

/-- The distance loop computes exactly the positive members of the list of
adjacent differences. -/
theorem positiveDiffs_eq_zipWith :
    ∀ l : List ℚ,
      positiveDiffs l
        = (List.zipWith (fun a b => a - b) l l.tail).filter (fun d => decide (0 < d)) := by
  intro l
  induction l with
  | nil => rfl
  | cons a tail ih =>
    cases tail with
    | nil => rfl
    | cons b rest =>
      simp only [List.tail_cons] at ih
      simp only [positiveDiffs, List.tail_cons, List.zipWith_cons_cons, List.filter_cons]
      rw [← ih]
      by_cases h : (0 : ℚ) < a - b
      · simp [h]
      · simp [h]

/-- Concrete sample response used by witnesses. -/
def sampleResponse : ReceiptResponse :=
  { success := true, receiptId := "r-1", status := "Saved", message := "ok",
    verificationStatus := "Manual", imageUrl := none,
    aiVerification := { enabled := false, status := "Not Requested" } }

/-- Concrete sample manual data used by witnesses. -/
def sampleManualData : ManualReceiptData :=
  { receiptNo := none, dateOnReceipt := none, fuelType := none,
    litres := 40, amount := 110, pricePerLitre := none,
    vehicleReg := "SAB 1234", odometerCurrent := 45230,
    odometerPrevious := none, distance := none, fuelEfficiency := none }

/-- Concrete sample history entry used by witnesses. -/
def sampleEntry : ReceiptHistoryEntry :=
  { id := "e-0", timestampMs := 1700000000000, station := "Depot Tawau",
    kodLokasi := "SBPT.26.64E", region := "Tawau", submittedBy := "A",
    vehicleReg := some "SAB 1234", odometerCurrent := some 45230,
    manualData := sampleManualData, response := sampleResponse }

/-- 51 append requests, used by the C1 witness. -/
def sampleItems : List (String × ReceiptHistoryEntry) :=
  (List.range 51).map (fun n => (toString n, sampleEntry))

/-- **C1**: after every append the store holds at most `MAX_ENTRIES = 50`
entries and the newly appended entry is first; appending 51 entries to an
empty store leaves exactly 50, namely the 50 most recently appended ones
(all but the oldest), in most-recent-first order. -/
theorem C1_history_retention :
    (∀ (newId : String) (entry : ReceiptHistoryEntry)
        (history : List ReceiptHistoryEntry),
        (addReceiptToHistory newId entry history).length ≤ MAX_ENTRIES ∧
        (addReceiptToHistory newId entry history).head?
          = some { entry with id := newId }) ∧
    (∀ items : List (String × ReceiptHistoryEntry), items.length = 51 →
        (appendAll items []).length = 50 ∧
        appendAll items [] = ((items.drop 1).map mkStoredEntry).reverse) := by
  constructor
  · intro newId entry history
    rw [addReceiptToHistory_eq_take]
    constructor
    · rw [List.length_take]
      exact Nat.min_le_left _ _
    · rw [List.head?_take]
      simp [MAX_ENTRIES]
  · intro items h51
    have hmap : (items.map mkStoredEntry).length = 51 := by
      rw [List.length_map, h51]
    have happ : appendAll items []
        = ((items.map mkStoredEntry).reverse).take MAX_ENTRIES := by
      rw [appendAll_eq_take items [] (by simp [MAX_ENTRIES])]
      simp
    constructor
    · rw [happ, List.length_take, List.length_reverse, hmap]
      rfl
    · rw [happ, List.take_reverse, hmap, List.map_drop]
      rfl

/-- Witness for **C1**: 51 concrete appends leave exactly 50 entries. -/
theorem C1_history_retention_witness :
    sampleItems.length = 51 ∧ (appendAll sampleItems []).length = 50 :=
  ⟨by simp [sampleItems],
    (C1_history_retention.2 sampleItems (by simp [sampleItems])).1⟩

/-- Spec-side description (claim C3) of the valid distances: adjacent
differences `newer - older` over the most-recent-first readings, keeping
only the strictly positive ones. -/
def specAdjacentPositiveDiffs (readings : List ℚ) : List ℚ :=
  (List.zipWith (fun a b => a - b) readings readings.tail).filter
    (fun d => decide (0 < d))

theorem vehicleReadings_length (history : List ReceiptHistoryEntry)
    (normalized : String) :
    (vehicleReadings history normalized).length
      = history.countP (entryMatchesVehicle normalized) := by
  unfold vehicleReadings
  rw [length_filterMap_of_isSome _ _ ?_, ← List.countP_eq_length_filter]
  intro e he
  have hp := (List.mem_filter.mp he).2
  simp only [entryMatchesVehicle, Bool.and_eq_true] at hp
  exact hp.2

/-- **C3**: `getAverageDistanceForVehicle` returns "no data" (`none`) when
fewer than 2 matching entries carry a present odometer reading; with at
least 2 readings (most recent first) it keeps the strictly positive
adjacent differences `newer - older` and returns their rounded arithmetic
mean, or `none` when no positive difference remains. -/
theorem C3_average_distance (history : List ReceiptHistoryEntry)
    (vehicleReg : String) :
    (vehicleReadings history (normalizeReg vehicleReg)).length
        = history.countP (entryMatchesVehicle (normalizeReg vehicleReg)) ∧
    (history.countP (entryMatchesVehicle (normalizeReg vehicleReg)) < 2 →
        getAverageDistanceForVehicle history vehicleReg = none) ∧
    (2 ≤ history.countP (entryMatchesVehicle (normalizeReg vehicleReg)) →
        getAverageDistanceForVehicle history vehicleReg
          = (if specAdjacentPositiveDiffs
                (vehicleReadings history (normalizeReg vehicleReg)) = []
             then none
             else some (jsRound
               ((specAdjacentPositiveDiffs
                  (vehicleReadings history (normalizeReg vehicleReg))).sum
                / ((specAdjacentPositiveDiffs
                    (vehicleReadings history (normalizeReg vehicleReg))).length
                    : ℚ))))) := by
  refine ⟨vehicleReadings_length history _, ?_, ?_⟩
  · intro hlt
    unfold getAverageDistanceForVehicle
    rw [if_pos]
    rw [vehicleReadings_length]
    exact hlt
  · intro hge
    unfold getAverageDistanceForVehicle
    dsimp only
    rw [if_neg (by rw [vehicleReadings_length]; omega),
      positiveDiffs_eq_zipWith]
    by_cases hnil : specAdjacentPositiveDiffs
        (vehicleReadings history (normalizeReg vehicleReg)) = []
    · rw [if_pos hnil]
      unfold specAdjacentPositiveDiffs at hnil
      rw [if_pos (by rw [hnil]; rfl)]
    · rw [if_neg hnil]
      unfold specAdjacentPositiveDiffs at hnil ⊢
      rw [if_neg (by
        intro hlen
        exact hnil (List.length_eq_zero.mp hlen))]

/-- A second sample entry, a later refuel of the same vehicle. -/
def sampleEntry2 : ReceiptHistoryEntry :=
  { sampleEntry with
    id := "e-1"
    timestampMs := 1700000300000
    odometerCurrent := some 45630 }

/-- Witness for **C3**: on the concrete two-entry history
(readings `[45630, 45230]`) the average distance is `some 400`. -/
theorem C3_average_distance_witness :
    2 ≤ (List.countP (entryMatchesVehicle (normalizeReg "SAB 1234"))
          [sampleEntry2, sampleEntry]) ∧
    getAverageDistanceForVehicle [sampleEntry2, sampleEntry] "SAB 1234"
      = some 400 := by
  refine ⟨by decide, ?_⟩
  rw [(C3_average_distance [sampleEntry2, sampleEntry] "SAB 1234").2.2 (by decide)]
  decide

/-- **C8**: vehicle-registration queries equal after trimming and
case-folding give identical results from `getLastOdometerForVehicle` and
`getAverageDistanceForVehicle`; concretely, `"sab 1234"`, `" SAB 1234 "` and
`"SAB 1234"` all retrieve the reading of a stored entry whose `vehicleReg`
is `"SAB 1234"`. -/
theorem C8_normalized_matching :
    (∀ (history : List ReceiptHistoryEntry) (q1 q2 : String),
        normalizeReg q1 = normalizeReg q2 →
        getLastOdometerForVehicle history q1 = getLastOdometerForVehicle history q2 ∧
        getAverageDistanceForVehicle history q1
          = getAverageDistanceForVehicle history q2) ∧
    (getLastOdometerForVehicle [sampleEntry] "sab 1234" = some 45230 ∧
     getLastOdometerForVehicle [sampleEntry] " SAB 1234 " = some 45230 ∧
     getLastOdometerForVehicle [sampleEntry] "SAB 1234" = some 45230) := by
  constructor
  · intro history q1 q2 h
    constructor
    · unfold getLastOdometerForVehicle
      rw [h]
    · unfold getAverageDistanceForVehicle
      rw [h]
  · refine ⟨by decide, by decide, by decide⟩

/-- Witness for **C8**: the normalization hypothesis discharged on the
concrete queries `"sab 1234"` and `" SAB 1234 "`. -/
theorem C8_normalized_matching_witness :
    normalizeReg "sab 1234" = normalizeReg " SAB 1234 " ∧
    getLastOdometerForVehicle [sampleEntry] "sab 1234"
      = getLastOdometerForVehicle [sampleEntry] " SAB 1234 " :=
  ⟨by decide,
    (C8_normalized_matching.1 [sampleEntry] "sab 1234" " SAB 1234 " (by decide)).1⟩

/-- The derived-distance computation (ReceiptCapture.tsx lines 940-942, and
identically in `Step3Content`, lines 653-655):
`odomCurrent != null && odomPrevious != null && odomCurrent > odomPrevious
  ? odomCurrent - odomPrevious : null`. -/
def distance (odomCurrent odomPrevious : Option ℚ) : Option ℚ :=
  match odomCurrent, odomPrevious with
  | some c, some p => if c > p then some (c - p) else none
  | _, _ => none

/-- The fuel-efficiency computation (ReceiptCapture.tsx lines 943-945):
`distance != null && litresNum != null && litresNum > 0
  ? distance / litresNum : null`. -/
def fuelEfficiency (dist litresNum : Option ℚ) : Option ℚ :=
  match dist, litresNum with
  | some d, some l => if 0 < l then some (d / l) else none
  | _, _ => none

/-- The price-per-litre computation (ReceiptCapture.tsx lines 824-829):
`amountNum != null && litresNum != null && litresNum > 0
  ? amountNum / litresNum : null`. -/
def pricePerLitre (amountNum litresNum : Option ℚ) : Option ℚ :=
  match amountNum, litresNum with
  | some a, some l => if 0 < l then some (a / l) else none
  | _, _ => none

/-- The numeric-input boundary `parseFloat(text) || null` (ReceiptCapture.tsx
lines 938-939 and 821-822). The argument is the `parseFloat` result (`none`
for `NaN`); both `NaN` and `0` are falsy, so `|| null` maps them to `null`. -/
def parseOrNull (parsed : Option ℚ) : Option ℚ :=
  match parsed with
  | none => none
  | some x => if x = 0 then none else some x

/-- **C5**: `distance` is `current - previous` exactly when both readings are
present and `current > previous`, is never zero or negative, and on the
spec's concrete examples gives `430`, "not computable", "not computable". -/
theorem C5_distance_computation :
    (∀ (cur prev : Option ℚ) (d : ℚ),
        distance cur prev = some d ↔
          ∃ c p, cur = some c ∧ prev = some p ∧ p < c ∧ d = c - p) ∧
    (∀ (cur prev : Option ℚ) (d : ℚ), distance cur prev = some d → 0 < d) ∧
    distance (some 45230) (some 44800) = some 430 ∧
    distance (some 44800) (some 45230) = none ∧
    distance (some 45230) (some 45230) = none := by
  have hiff : ∀ (cur prev : Option ℚ) (d : ℚ),
      distance cur prev = some d ↔
        ∃ c p, cur = some c ∧ prev = some p ∧ p < c ∧ d = c - p := by
    intro cur prev d
    constructor
    · intro h
      match cur, prev with
      | some c, some p =>
        simp only [distance] at h
        by_cases hcp : c > p
        · rw [if_pos hcp] at h
          exact ⟨c, p, rfl, rfl, hcp, (Option.some.injEq _ _ ▸ h).symm⟩
        · rw [if_neg hcp] at h
          exact absurd h (Option.some_ne_none d).symm
      | some c, none => exact absurd h (Option.some_ne_none d).symm
      | none, _ => exact absurd h (Option.some_ne_none d).symm
    · rintro ⟨c, p, rfl, rfl, hcp, rfl⟩
      simp only [distance]
      rw [if_pos hcp]
  refine ⟨hiff, ?_, by decide, by decide, by decide⟩
  intro cur prev d h
  obtain ⟨c, p, _, _, hcp, rfl⟩ := (hiff cur prev d).mp h
  exact sub_pos.mpr hcp

/-- Witness for **C5**: positivity discharged at the concrete computable
distance `45230 - 44800 = 430`. -/
theorem C5_distance_computation_witness :
    distance (some 45230) (some 44800) = some 430 ∧ (0 : ℚ) < 430 :=
  ⟨by decide, C5_distance_computation.2.1 (some 45230) (some 44800) 430 (by decide)⟩

/-- **C9**: at the numeric-input boundary a field whose text parses to `0` is
treated as absent; consequently a previous-odometer field of `"0"` makes the
derived distance "not computable" for every current odometer, and an amount
of `"0"` yields no price per litre. -/
theorem C9_zero_is_absent :
    (∀ parsed : Option ℚ, parsed = some 0 → parseOrNull parsed = none) ∧
    (∀ cur : Option ℚ, distance cur (parseOrNull (some 0)) = none) ∧
    (∀ litres : Option ℚ, pricePerLitre (parseOrNull (some 0)) litres = none) := by
  refine ⟨?_, ?_, ?_⟩
  · rintro parsed rfl
    simp [parseOrNull]
  · intro cur
    have h0 : parseOrNull (some 0) = none := by simp [parseOrNull]
    rw [h0]
    match cur with
    | some c => rfl
    | none => rfl
  · intro litres
    have h0 : parseOrNull (some 0) = none := by simp [parseOrNull]
    rw [h0]
    match litres with
    | some l => rfl
    | none => rfl

/-- Witness for **C9**: the zero-parse hypothesis discharged at `some 0`, and
the concrete positive current odometer `45230` still gives no distance. -/
theorem C9_zero_is_absent_witness :
    parseOrNull (some 0) = none ∧
    distance (some 45230) (parseOrNull (some 0)) = none :=
  ⟨C9_zero_is_absent.1 (some 0) rfl, C9_zero_is_absent.2.1 (some 45230)⟩

/-- The duplicate probe of `handleSubmit` (ReceiptCapture.tsx lines 952-957):
`getReceiptHistory().find(entry => entry.kodLokasi === station.kodLokasi &&
entry.response.status === 'Saved' &&
Date.now() - new Date(entry.timestamp).getTime() < 5 * 60 * 1000)`. -/
def recentDuplicateCapture (history : List ReceiptHistoryEntry)
    (stationKodLokasi : String) (now : Int) : Option ReceiptHistoryEntry :=
  history.find? (fun entry =>
    entry.kodLokasi == stationKodLokasi &&
    entry.response.status == "Saved" &&
    decide (now - entry.timestampMs < 5 * 60 * 1000))

/-- The duplicate probe of `handleConfirm` (Sidebar.tsx lines 404-409), which
checks the `'Processed'` status of its protocol revision. -/
def recentDuplicateSidebar (history : List ReceiptHistoryEntry)
    (stationKodLokasi : String) (now : Int) : Option ReceiptHistoryEntry :=
  history.find? (fun entry =>
    entry.kodLokasi == stationKodLokasi &&
    entry.response.status == "Processed" &&
    decide (now - entry.timestampMs < 5 * 60 * 1000))

theorem recentDuplicateCapture_isSome (history : List ReceiptHistoryEntry)
    (kod : String) (now : Int) :
    (recentDuplicateCapture history kod now).isSome = true ↔
      ∃ e ∈ history, e.kodLokasi = kod ∧ e.response.status = "Saved" ∧
        now - e.timestampMs < 300000 := by
  unfold recentDuplicateCapture
  rw [List.find?_isSome]
  constructor
  · rintro ⟨e, he, hp⟩
    simp only [Bool.and_eq_true, beq_iff_eq, decide_eq_true_eq] at hp
    exact ⟨e, he, hp.1.1, hp.1.2, hp.2⟩
  · rintro ⟨e, he, h1, h2, h3⟩
    refine ⟨e, he, ?_⟩
    simp only [Bool.and_eq_true, beq_iff_eq, decide_eq_true_eq]
    exact ⟨⟨h1, h2⟩, h3⟩

theorem recentDuplicateSidebar_isSome (history : List ReceiptHistoryEntry)
    (kod : String) (now : Int) :
    (recentDuplicateSidebar history kod now).isSome = true ↔
      ∃ e ∈ history, e.kodLokasi = kod ∧ e.response.status = "Processed" ∧
        now - e.timestampMs < 300000 := by
  unfold recentDuplicateSidebar
  rw [List.find?_isSome]
  constructor
  · rintro ⟨e, he, hp⟩
    simp only [Bool.and_eq_true, beq_iff_eq, decide_eq_true_eq] at hp
    exact ⟨e, he, hp.1.1, hp.1.2, hp.2⟩
  · rintro ⟨e, he, h1, h2, h3⟩
    refine ⟨e, he, ?_⟩
    simp only [Bool.and_eq_true, beq_iff_eq, decide_eq_true_eq]
    exact ⟨⟨h1, h2⟩, h3⟩

/-- A copy of the sample entry whose timestamp lies `age` milliseconds before
the fixed check instant `1700000300000`. -/
def agedEntry (age : Int) : ReceiptHistoryEntry :=
  { sampleEntry with timestampMs := 1700000300000 - age }

/-- **C4**: a submission attempt is flagged as a likely duplicate iff the
history holds an entry with the same `kodLokasi`, a completed-save status
(`'Saved'` in the capture flow, `'Processed'` in the sidebar flow) and a
timestamp strictly less than `5 * 60 * 1000 = 300000` ms before the check
instant; a matching entry aged 299999 ms is flagged, aged 300001 ms (or
exactly 300000 ms) is not. -/
theorem C4_duplicate_window :
    (∀ (history : List ReceiptHistoryEntry) (kod : String) (now : Int),
        (recentDuplicateCapture history kod now).isSome = true ↔
          ∃ e ∈ history, e.kodLokasi = kod ∧ e.response.status = "Saved" ∧
            now - e.timestampMs < 300000) ∧
    (∀ (history : List ReceiptHistoryEntry) (kod : String) (now : Int),
        (recentDuplicateSidebar history kod now).isSome = true ↔
          ∃ e ∈ history, e.kodLokasi = kod ∧ e.response.status = "Processed" ∧
            now - e.timestampMs < 300000) ∧
    (recentDuplicateCapture [agedEntry 299999] "SBPT.26.64E" 1700000300000).isSome
      = true ∧
    (recentDuplicateCapture [agedEntry 300000] "SBPT.26.64E" 1700000300000).isSome
      = false ∧
    (recentDuplicateCapture [agedEntry 300001] "SBPT.26.64E" 1700000300000).isSome
      = false :=
  ⟨recentDuplicateCapture_isSome, recentDuplicateSidebar_isSome,
    by decide, by decide, by decide⟩

/-- The `Phase` union of ReceiptCapture.tsx:
`'idle' | 'submitting' | 'success' | 'error'`. -/
inductive Phase where
  | idle
  | submitting
  | success
  | error
  deriving Repr, DecidableEq

/-- The orchestrator state touched by `handleSubmit` (ReceiptCapture.tsx):
the `submitInFlight` ref, the `phase`, `resultMessage`, `duplicateWarning`
and `receiptResult` states, and the persisted history store. -/
structure OrchestratorState where
  submitInFlight : Bool
  phase : Phase
  resultMessage : String
  duplicateWarning : Bool
  receiptResult : Option ReceiptResponse
  history : List ReceiptHistoryEntry
  deriving Repr, DecidableEq

/-- The form data `handleSubmit` reads. Text fields are the raw strings;
`litresNum`, `amountNum`, `odomCurrent` and `odomPrevious` are the
already-parsed `parseFloat(text) || null` values the component derives from
them (`none` encodes `null`). -/
structure SubmitInputs where
  imageBase64 : Option String
  vehicleReg : String
  odometerCurrentText : String
  litresNum : Option ℚ
  amountNum : Option ℚ
  odomCurrent : Option ℚ
  odomPrevious : Option ℚ
  stationName : String
  kodLokasi : String
  region : String
  submittedBy : String
  receiptNo : String
  dateOnReceipt : String
  fuelType : String
  deriving Repr, DecidableEq

/-- JS falsiness of a nullable string (`null` and `''`). -/
def jsFalsyOptStr : Option String → Bool
  | none => true
  | some s => s == ""

/-- JS falsiness of a nullable number (`null` and `0`). -/
def jsFalsyOptNum : Option ℚ → Bool
  | none => true
  | some x => decide (x = 0)

/-- `s.trim() || null` (used for `receiptNo` and `dateOnReceipt`). -/
def jsTrimOrNull (s : String) : Option String :=
  if jsTrim s == "" then none else some (jsTrim s)

/-- `s || null` (used for `fuelType`). -/
def jsStrOrNull (s : String) : Option String :=
  if s == "" then none else some s

/-- The early-return guard of `handleSubmit` (ReceiptCapture.tsx line 949):
`!imageBase64 || submitInFlight.current || !vehicleReg.trim() ||
!odometerCurrent.trim() || !litresNum || !amountNum`. -/
def submitGuardBlocked (s : OrchestratorState) (inp : SubmitInputs) : Bool :=
  jsFalsyOptStr inp.imageBase64 || s.submitInFlight ||
  (jsTrim inp.vehicleReg == "") || (jsTrim inp.odometerCurrentText == "") ||
  jsFalsyOptNum inp.litresNum || jsFalsyOptNum inp.amountNum

/-- The part of `handleSubmit` up to (and including) the decision to invoke
the external collaborator (ReceiptCapture.tsx lines 948-968): guard check,
duplicate check, then warning-reset / in-flight set / phase change. The
returned flag says whether the collaborator call is issued. -/
def handleSubmitStart (s : OrchestratorState) (inp : SubmitInputs)
    (bypassDuplicateCheck : Bool) (now : Int) : OrchestratorState × Bool :=
  if submitGuardBlocked s inp then (s, false)
  else if !bypassDuplicateCheck &&
      (recentDuplicateCapture s.history inp.kodLokasi now).isSome then
    ({ s with duplicateWarning := true }, false)
  else
    ({ s with
        duplicateWarning := false
        submitInFlight := true
        phase := Phase.submitting
        resultMessage := "" },
      true)

/-- The history entry `handleSubmit` appends on success (ReceiptCapture.tsx
lines 996-1020); `savedAtMs` is the `new Date().toISOString()` instant of the
append. The fresh id is assigned by `addReceiptToHistory`. The non-null
assertions `odomCurrent!` and the guard-narrowed `litresNum`/`amountNum` are
modelled with `Option.getD 0` (the guard makes them present and nonzero). -/
def mkSubmitEntry (inp : SubmitInputs) (savedAtMs : Int)
    (result : ReceiptResponse) : ReceiptHistoryEntry :=
  { id := ""
    timestampMs := savedAtMs
    station := inp.stationName
    kodLokasi := inp.kodLokasi
    region := inp.region
    submittedBy := if jsTrim inp.submittedBy == "" then "Anonymous"
      else jsTrim inp.submittedBy
    vehicleReg := some (jsTrim inp.vehicleReg)
    odometerCurrent := inp.odomCurrent
    manualData :=
      { receiptNo := jsTrimOrNull inp.receiptNo
        dateOnReceipt := jsTrimOrNull inp.dateOnReceipt
        fuelType := jsStrOrNull inp.fuelType
        litres := inp.litresNum.getD 0
        amount := inp.amountNum.getD 0
        pricePerLitre := pricePerLitre inp.amountNum inp.litresNum
        vehicleReg := jsTrim inp.vehicleReg
        odometerCurrent := inp.odomCurrent.getD 0
        odometerPrevious := inp.odomPrevious
        distance := distance inp.odomCurrent inp.odomPrevious
        fuelEfficiency :=
          fuelEfficiency (distance inp.odomCurrent inp.odomPrevious)
            inp.litresNum }
    response := result }

/-- Outcome of the awaited collaborator call: a returned response or a thrown
JS `Error` with its message (non-`Error` throws surface as the generic
`'Failed to submit receipt.'` message at the catch site; `submitReceipt`
itself only ever throws `Error`s). -/
inductive CollabOutcome where
  | ok (result : ReceiptResponse)
  | thrown (message : String)
  deriving Repr, DecidableEq

/-- The rest of `handleSubmit` after the `await` resolves or throws
(ReceiptCapture.tsx lines 969-1025): the `try` tail on success, the `catch`
on a throw, and the `finally` clearing the in-flight flag on both paths. -/
def handleSubmitFinish (s : OrchestratorState) (inp : SubmitInputs)
    (savedAtMs : Int) (newId : String) (outcome : CollabOutcome) :
    OrchestratorState :=
  match outcome with
  | .ok result =>
    { s with
        receiptResult := some result
        resultMessage := if result.message == "" then
            "Receipt recorded successfully"
          else result.message
        phase := Phase.success
        history := addReceiptToHistory newId (mkSubmitEntry inp savedAtMs result)
          s.history
        submitInFlight := false }
  | .thrown msg =>
    { s with
        phase := Phase.error
        resultMessage := msg
        submitInFlight := false }

/-- The HTTP response seen by `submitReceipt` (api.ts): transport `ok`/
`status`/`statusText`, and the parsed JSON body (`Except.error` models a
body that fails to parse, carrying the parse error's message). -/
structure FetchResponse where
  ok : Bool
  status : Nat
  statusText : String
  body : Except String ReceiptResponse
  deriving Repr

/-- `submitReceipt` (api.ts lines 161-179) as a function of the fetch result
(`Except.error` on the input models a rejected `fetch`, e.g. network
failure; on the output a thrown `Error` with its message). -/
def submitReceipt (fetchResult : Except String FetchResponse) :
    Except String ReceiptResponse :=
  match fetchResult with
  | .error e => .error e
  | .ok response =>
    if !response.ok then
      .error ("HTTP " ++ toString response.status ++ ": " ++ response.statusText)
    else
      match response.body with
      | .error e => .error e
      | .ok data =>
        if data.success = false then
          .error (if data.message == "" then "Receipt submission failed"
            else data.message)
        else .ok data

/-- How the orchestrator's `try`/`catch` sees the collaborator call. -/
def collabOutcome (fetchResult : Except String FetchResponse) : CollabOutcome :=
  match submitReceipt fetchResult with
  | .ok r => CollabOutcome.ok r
  | .error msg => CollabOutcome.thrown msg

/-- **C6**: the in-flight guard admits at most one outstanding submission: a
submit call made while one is in flight changes nothing and does not invoke
the collaborator; an invoking call raises the guard; and the continuation
after the collaborator resolves clears the guard on every exit path
(success, failure or thrown exception). -/
theorem C6_submission_guard :
    (∀ (s : OrchestratorState) (inp : SubmitInputs) (bypass : Bool) (now : Int),
        s.submitInFlight = true →
        handleSubmitStart s inp bypass now = (s, false)) ∧
    (∀ (s : OrchestratorState) (inp : SubmitInputs) (bypass : Bool) (now : Int),
        (handleSubmitStart s inp bypass now).2 = true →
        (handleSubmitStart s inp bypass now).1.submitInFlight = true) ∧
    (∀ (s : OrchestratorState) (inp : SubmitInputs) (savedAtMs : Int)
        (newId : String) (outcome : CollabOutcome),
        (handleSubmitFinish s inp savedAtMs newId outcome).submitInFlight
          = false) := by
  refine ⟨?_, ?_, ?_⟩
  · intro s inp bypass now h
    have hg : submitGuardBlocked s inp = true := by
      unfold submitGuardBlocked
      rw [h]
      simp
    unfold handleSubmitStart
    rw [if_pos hg]
  · intro s inp bypass now h
    unfold handleSubmitStart at h ⊢
    by_cases hg : submitGuardBlocked s inp
    · rw [if_pos hg] at h
      exact absurd h (by simp)
    · rw [if_neg hg] at h ⊢
      by_cases hd : (!bypass &&
          (recentDuplicateCapture s.history inp.kodLokasi now).isSome) = true
      · rw [if_pos hd] at h
        exact absurd h (by simp)
      · rw [if_neg hd]
  · intro s inp savedAtMs newId outcome
    cases outcome <;> rfl

/-- A state with a submission in flight, for the C6 witness. -/
def busyState : OrchestratorState :=
  { submitInFlight := true
    phase := Phase.submitting
    resultMessage := ""
    duplicateWarning := false
    receiptResult := none
    history := [sampleEntry] }

/-- Concrete form inputs for the orchestrator witnesses. -/
def sampleInputs : SubmitInputs :=
  { imageBase64 := some "aW1n"
    vehicleReg := "SAB 1234"
    odometerCurrentText := "45630"
    litresNum := some 38
    amountNum := some 110
    odomCurrent := some 45630
    odomPrevious := some 45230
    stationName := "Depot Tawau"
    kodLokasi := "SBPT.26.64E"
    region := "Tawau"
    submittedBy := "A"
    receiptNo := ""
    dateOnReceipt := ""
    fuelType := "Diesel" }

/-- Witness for **C6**: with the guard raised, a second submit call at the
concrete busy state is a no-op. -/
theorem C6_submission_guard_witness :
    busyState.submitInFlight = true ∧
    handleSubmitStart busyState sampleInputs false 1700000300000
      = (busyState, false) :=
  ⟨rfl, C6_submission_guard.1 busyState sampleInputs false 1700000300000 rfl⟩

/-- **C7**: when the collaborator call fails (rejected fetch, non-2xx
transport status, unparseable body, or `success: false`), `submitReceipt`
throws, and the orchestrator's continuation appends nothing to the history,
surfaces the thrown message, ends in the retryable `error` phase with the
guard released; when it reports success the continuation appends exactly one
entry (the new entry, id-stamped, in front, truncated to the cap). -/
theorem C7_failure_isolation :
    (∀ (s : OrchestratorState) (inp : SubmitInputs) (savedAtMs : Int)
        (newId : String) (fr : Except String FetchResponse) (msg : String),
        submitReceipt fr = .error msg →
          (handleSubmitFinish s inp savedAtMs newId (collabOutcome fr)).history
            = s.history ∧
          (handleSubmitFinish s inp savedAtMs newId
              (collabOutcome fr)).resultMessage = msg ∧
          (handleSubmitFinish s inp savedAtMs newId (collabOutcome fr)).phase
            = Phase.error ∧
          (handleSubmitFinish s inp savedAtMs newId
              (collabOutcome fr)).submitInFlight = false) ∧
    (∀ r : FetchResponse, r.ok = false →
        ∃ msg, submitReceipt (.ok r) = .error msg) ∧
    (∀ (r : FetchResponse) (e : String), r.body = .error e →
        ∃ msg, submitReceipt (.ok r) = .error msg) ∧
    (∀ (r : FetchResponse) (data : ReceiptResponse),
        r.body = .ok data → data.success = false →
        ∃ msg, submitReceipt (.ok r) = .error msg) ∧
    (∀ (s : OrchestratorState) (inp : SubmitInputs) (savedAtMs : Int)
        (newId : String) (fr : Except String FetchResponse)
        (result : ReceiptResponse),
        submitReceipt fr = .ok result →
          (handleSubmitFinish s inp savedAtMs newId (collabOutcome fr)).history
            = addReceiptToHistory newId (mkSubmitEntry inp savedAtMs result)
                s.history ∧
          (handleSubmitFinish s inp savedAtMs newId (collabOutcome fr)).phase
            = Phase.success) := by
  refine ⟨?_, ?_, ?_, ?_, ?_⟩
  · intro s inp savedAtMs newId fr msg h
    have hc : collabOutcome fr = CollabOutcome.thrown msg := by
      unfold collabOutcome
      rw [h]
    rw [hc]
    exact ⟨rfl, rfl, rfl, rfl⟩
  · intro r hok
    refine ⟨"HTTP " ++ toString r.status ++ ": " ++ r.statusText, ?_⟩
    simp [submitReceipt, hok]
  · intro r e hbody
    by_cases hok : r.ok
    · refine ⟨e, ?_⟩
      simp [submitReceipt, hok, hbody]
    · refine ⟨"HTTP " ++ toString r.status ++ ": " ++ r.statusText, ?_⟩
      rw [Bool.not_eq_true] at hok
      simp [submitReceipt, hok]
  · intro r data hbody hsucc
    by_cases hok : r.ok
    · refine ⟨if data.message == "" then "Receipt submission failed"
        else data.message, ?_⟩
      simp [submitReceipt, hok, hbody, hsucc]
    · refine ⟨"HTTP " ++ toString r.status ++ ": " ++ r.statusText, ?_⟩
      rw [Bool.not_eq_true] at hok
      simp [submitReceipt, hok]
  · intro s inp savedAtMs newId fr result h
    have hc : collabOutcome fr = CollabOutcome.ok result := by
      unfold collabOutcome
      rw [h]
    rw [hc]
    exact ⟨rfl, rfl⟩

/-- A failed transport response, for the C7 witness. -/
def sampleFetchFail : Except String FetchResponse :=
  .ok { ok := false, status := 500, statusText := "Internal Server Error",
        body := .error "Unexpected end of JSON input" }

/-- An idle state holding one history entry, for the C7 witness. -/
def idleState : OrchestratorState :=
  { submitInFlight := false
    phase := Phase.idle
    resultMessage := ""
    duplicateWarning := false
    receiptResult := none
    history := [sampleEntry] }

/-- Witness for **C7**: the concrete HTTP-500 failure throws and leaves the
one-entry history unchanged. -/
theorem C7_failure_isolation_witness :
    submitReceipt sampleFetchFail = .error "HTTP 500: Internal Server Error" ∧
    (handleSubmitFinish idleState sampleInputs 1700000300000 "id-1"
        (collabOutcome sampleFetchFail)).history = idleState.history :=
  ⟨rfl,
    (C7_failure_isolation.1 idleState sampleInputs 1700000300000 "id-1"
      sampleFetchFail "HTTP 500: Internal Server Error" rfl).1⟩

/-- The value domain of the browser runtime as far as the history code can
observe it: the JSON-representable values plus `undefined` and `NaN` (which
arise from property access and arithmetic at run time, never from
`JSON.parse`). -/
inductive JsValue where
  | null
  | undefined
  | nan
  | bool (b : Bool)
  | num (q : ℚ)
  | str (s : String)
  | arr (elems : List JsValue)
  | obj (fields : List (String × JsValue))

/-- Is the value shaped like a history sequence at all (an array)? A necessary
condition for any notion of "valid history". -/
def isHistoryArray : JsValue → Bool
  | .arr _ => true
  | _ => false

/-- `localStorage.getItem(STORAGE_KEY)` composed with `JSON.parse`, as
`getReceiptHistory` observes it: `absent` = `getItem` returned `null` (or the
falsy `''`); `invalid m` = `JSON.parse` throws a `SyntaxError` with message
`m` (truncated or non-JSON text); `parsed v` = the parse succeeded with `v`. -/
inductive RawBlob where
  | absent
  | invalid (message : String)
  | parsed (v : JsValue)

/-- The `try` block of `getReceiptHistory` (receipt-history.ts lines 20-23):
`[]` for a falsy blob, otherwise the `JSON.parse` result returned unchecked
(the `as ReceiptHistoryEntry[]` cast does nothing at run time); a parse
failure escapes as an exception. -/
def getReceiptHistoryBody : RawBlob → Except String JsValue
  | .absent => .ok (.arr [])
  | .invalid e => .error e
  | .parsed v => .ok v

/-- `getReceiptHistory` (receipt-history.ts lines 19-27): the `try`/`catch`
mapping every thrown error to `[]`. -/
def getReceiptHistoryJs (blob : RawBlob) : JsValue :=
  match getReceiptHistoryBody blob with
  | .ok v => v
  | .error _ => .arr []

/-- JS property read `v[name]`: `undefined` for a missing key or a primitive
receiver, a thrown `TypeError` when the receiver is `null`/`undefined`. -/
def getFieldJs : JsValue → String → Except String JsValue
  | .null, _ => .error "TypeError: Cannot read properties of null"
  | .undefined, _ => .error "TypeError: Cannot read properties of undefined"
  | .obj fields, name =>
    .ok (((fields.find? (fun f => f.1 == name)).map (fun f => f.2)).getD .undefined)
  | _, _ => .ok .undefined

/-- The optional chain `v?.trim().toUpperCase()` (receipt-history.ts lines
54 and 72): `undefined` when `v` is nullish, the normalized string when `v`
is a string, and a thrown `TypeError` otherwise (`.trim` is `undefined` on a
number, boolean, array or object, and calling it throws). -/
def optChainNormalize : JsValue → Except String JsValue
  | .null => .ok .undefined
  | .undefined => .ok .undefined
  | .str s => .ok (.str (normalizeReg s))
  | _ => .error "TypeError: trim is not a function"

/-- JS strict equality `v === s` against a known string. -/
def jsStrictEqStr (v : JsValue) (s : String) : Bool :=
  match v with
  | .str t => t == s
  | _ => false

/-- JS loose `v != null` (excludes exactly `null` and `undefined`). -/
def jsNonNullish : JsValue → Bool
  | .null => false
  | .undefined => false
  | _ => true

/-- The predicate `entry.vehicleReg?.trim().toUpperCase() === normalized &&
entry.odometerCurrent != null` over an arbitrary runtime value, with JS
evaluation order and short-circuiting, and exceptions propagated. -/
def entryMatchesVehicleJs (normalized : String) (e : JsValue) :
    Except String Bool :=
  match getFieldJs e "vehicleReg" with
  | .error msg => .error msg
  | .ok vr =>
    match optChainNormalize vr with
    | .error msg => .error msg
    | .ok chain =>
      if jsStrictEqStr chain normalized then
        match getFieldJs e "odometerCurrent" with
        | .error msg => .error msg
        | .ok od => .ok (jsNonNullish od)
      else .ok false

/-- The `for (const entry of history)` loop of `getLastOdometerForVehicle`
over arbitrary runtime entries. -/
def lastOdometerLoopJs (normalized : String) :
    List JsValue → Except String JsValue
  | [] => .ok .null
  | e :: rest =>
    match entryMatchesVehicleJs normalized e with
    | .error msg => .error msg
    | .ok true => getFieldJs e "odometerCurrent"
    | .ok false => lastOdometerLoopJs normalized rest

/-- `getLastOdometerForVehicle` (receipt-history.ts lines 50-59) over
arbitrary runtime history contents. -/
def getLastOdometerForVehicleJs (history : List JsValue)
    (vehicleReg : String) : Except String JsValue :=
  lastOdometerLoopJs (normalizeReg vehicleReg) history

/-- `Array.prototype.filter` with an effectful (possibly throwing) predicate,
evaluated left to right. -/
def filterJs (p : JsValue → Except String Bool) :
    List JsValue → Except String (List JsValue)
  | [] => .ok []
  | e :: rest =>
    match p e with
    | .error msg => .error msg
    | .ok b =>
      match filterJs p rest with
      | .error msg => .error msg
      | .ok tail => .ok (if b then e :: tail else tail)

/-- `.map(e => e.odometerCurrent as number)`: the field read of each element
(the cast does nothing at run time). -/
def mapFieldJs (name : String) : List JsValue → Except String (List JsValue)
  | [] => .ok []
  | e :: rest =>
    match getFieldJs e name with
    | .error msg => .error msg
    | .ok v =>
      match mapFieldJs name rest with
      | .error msg => .error msg
      | .ok tail => .ok (v :: tail)

/-- JS `ToNumber` coercion, restricted to the cases reachable below; string
and object coercions (never reached under the hypotheses used here) are
conservatively sent to `NaN`. -/
def jsToNumber : JsValue → Option ℚ
  | .num q => some q
  | .nan => none
  | .null => some 0
  | .undefined => none
  | .bool b => some (if b then 1 else 0)
  | .str _ => none
  | .arr _ => none
  | .obj _ => none

/-- JS binary `-` on runtime values. -/
def jsSub (a b : JsValue) : JsValue :=
  match jsToNumber a, jsToNumber b with
  | some x, some y => .num (x - y)
  | _, _ => .nan

/-- JS binary `+` as used by the numeric `reduce` accumulator. -/
def jsAdd (a b : JsValue) : JsValue :=
  match jsToNumber a, jsToNumber b with
  | some x, some y => .num (x + y)
  | _, _ => .nan

/-- JS `/` on runtime values (division by zero, which cannot occur below
because the divisor is a positive list length, is sent to `NaN`). -/
def jsDiv (a b : JsValue) : JsValue :=
  match jsToNumber a, jsToNumber b with
  | some x, some y => if y = 0 then .nan else .num (x / y)
  | _, _ => .nan

/-- JS `dist > 0` (false on `NaN` and non-numbers). -/
def jsGtZero : JsValue → Bool
  | .num q => decide (0 < q)
  | _ => false

/-- The distance-collecting loop of `getAverageDistanceForVehicle` over
runtime values. -/
def positiveDiffsJs : List JsValue → List JsValue
  | a :: b :: rest =>
    let dist := jsSub a b
    if jsGtZero dist then dist :: positiveDiffsJs (b :: rest)
    else positiveDiffsJs (b :: rest)
  | _ => []

/-- `distances.reduce((sum, d) => sum + d, 0)`. -/
def jsSumJs (l : List JsValue) : JsValue :=
  l.foldl jsAdd (.num 0)

/-- JS `Math.round` (`NaN` in, `NaN` out). -/
def jsMathRound : JsValue → JsValue
  | .num q => .num ((jsRound q : ℤ) : ℚ)
  | _ => .nan

/-- `getAverageDistanceForVehicle` (receipt-history.ts lines 66-88) over
arbitrary runtime history contents. -/
def getAverageDistanceForVehicleJs (history : List JsValue)
    (vehicleReg : String) : Except String JsValue :=
  let normalized := normalizeReg vehicleReg
  match filterJs (entryMatchesVehicleJs normalized) history with
  | .error msg => .error msg
  | .ok filtered =>
    match mapFieldJs "odometerCurrent" filtered with
    | .error msg => .error msg
    | .ok readings =>
      if readings.length < 2 then .ok .null
      else
        let distances := positiveDiffsJs readings
        if distances.length = 0 then .ok .null
        else .ok (jsMathRound (jsDiv (jsSumJs distances)
          (.num (distances.length : ℚ))))

/-- Is the value `null`, `undefined` or a string? (The types of `vehicleReg`
under which the optional chain cannot throw.) -/
def nullishOrStr : JsValue → Bool
  | .null => true
  | .undefined => true
  | .str _ => true
  | _ => false

/-- Is the value `null`, `undefined` or a number? -/
def nullishOrNum : JsValue → Bool
  | .null => true
  | .undefined => true
  | .num _ => true
  | _ => false

/-- Is the value a (non-`NaN`) number? -/
def isNumJs : JsValue → Bool
  | .num _ => true
  | _ => false

/-- Does a field of `e` exist (no throw on access) and satisfy `p`? -/
def fieldSat (e : JsValue) (name : String) (p : JsValue → Bool) : Bool :=
  match getFieldJs e name with
  | .ok v => p v
  | .error _ => false

/-- A runtime history entry on which the metric functions cannot throw: the
entry itself is not nullish, its `vehicleReg` is absent, null or a string,
and its `odometerCurrent` is absent, null or a number. -/
def entryOkJs (e : JsValue) : Bool :=
  jsNonNullish e && fieldSat e "vehicleReg" nullishOrStr &&
    fieldSat e "odometerCurrent" nullishOrNum

/-- Counterexample to **C2** as stated: the persisted blob `"42"` is valid
JSON but not valid history (not even an array), yet `getReceiptHistory`
returns the parsed junk value `42` rather than the empty sequence. -/
theorem C2_storage_recovery_counterexample :
    isHistoryArray (getReceiptHistoryJs (RawBlob.parsed (JsValue.num 42)))
      = false ∧
    getReceiptHistoryJs (RawBlob.parsed (JsValue.num 42)) ≠ JsValue.arr [] :=
  ⟨rfl, fun h => JsValue.noConfusion h⟩

/-- **C2** (amended): `getReceiptHistory` never throws — the `catch` maps
every thrown parse error to the empty sequence — and it returns the empty
sequence when nothing is persisted or the blob is not syntactically valid
JSON; a blob that does parse is returned as parsed, without any shape
validation. -/
theorem C2_storage_recovery :
    getReceiptHistoryJs RawBlob.absent = JsValue.arr [] ∧
    (∀ m, getReceiptHistoryJs (RawBlob.invalid m) = JsValue.arr []) ∧
    (∀ (blob : RawBlob) (m : String), getReceiptHistoryBody blob = .error m →
        getReceiptHistoryJs blob = JsValue.arr []) ∧
    (∀ v, getReceiptHistoryJs (RawBlob.parsed v) = v) := by
  refine ⟨rfl, fun m => rfl, ?_, fun v => rfl⟩
  intro blob m h
  unfold getReceiptHistoryJs
  rw [h]

/-- Witness for **C2**: a concrete syntactically invalid blob throws in the
`try` block and is recovered to the empty sequence. -/
theorem C2_storage_recovery_witness :
    getReceiptHistoryBody (RawBlob.invalid "SyntaxError: Unexpected end of JSON input")
      = Except.error "SyntaxError: Unexpected end of JSON input" ∧
    getReceiptHistoryJs (RawBlob.invalid "SyntaxError: Unexpected end of JSON input")
      = JsValue.arr [] :=
  ⟨rfl,
    C2_storage_recovery.2.2.1
      (RawBlob.invalid "SyntaxError: Unexpected end of JSON input")
      "SyntaxError: Unexpected end of JSON input" rfl⟩

theorem getFieldJs_ok_of_nonNullish {e : JsValue} (name : String)
    (h : jsNonNullish e = true) : ∃ v, getFieldJs e name = .ok v := by
  cases e with
  | null => exact absurd h (by decide)
  | undefined => exact absurd h (by decide)
  | nan => exact ⟨.undefined, rfl⟩
  | bool b => exact ⟨.undefined, rfl⟩
  | num q => exact ⟨.undefined, rfl⟩
  | str s => exact ⟨.undefined, rfl⟩
  | arr l => exact ⟨.undefined, rfl⟩
  | obj fields => exact ⟨_, rfl⟩

theorem entryMatchesVehicleJs_ok {e : JsValue} (n : String)
    (h : entryOkJs e = true) :
    ∃ b, entryMatchesVehicleJs n e = .ok b ∧
      (b = true → ∃ q, getFieldJs e "odometerCurrent" = .ok (JsValue.num q)) := by
  unfold entryOkJs at h
  simp only [Bool.and_eq_true] at h
  obtain ⟨⟨hnn, hvr⟩, hod⟩ := h
  obtain ⟨vr, hvreq⟩ := getFieldJs_ok_of_nonNullish "vehicleReg" hnn
  obtain ⟨ov, hoveq⟩ := getFieldJs_ok_of_nonNullish "odometerCurrent" hnn
  unfold fieldSat at hvr hod
  rw [hvreq] at hvr
  dsimp only at hvr
  rw [hoveq] at hod
  dsimp only at hod
  have hchain : ∃ c, optChainNormalize vr = .ok c := by
    cases vr with
    | null => exact ⟨_, rfl⟩
    | undefined => exact ⟨_, rfl⟩
    | str s => exact ⟨_, rfl⟩
    | nan => exact absurd hvr (by decide)
    | bool b => exact absurd hvr (by simp [nullishOrStr])
    | num q => exact absurd hvr (by simp [nullishOrStr])
    | arr l => exact absurd hvr (by simp [nullishOrStr])
    | obj fs => exact absurd hvr (by simp [nullishOrStr])
  obtain ⟨c, hc⟩ := hchain
  unfold entryMatchesVehicleJs
  rw [hvreq]
  dsimp only
  rw [hc]
  dsimp only
  by_cases hs : jsStrictEqStr c n = true
  · rw [if_pos hs, hoveq]
    dsimp only
    refine ⟨jsNonNullish ov, rfl, ?_⟩
    intro hb
    cases ov with
    | num q => exact ⟨q, rfl⟩
    | null => exact absurd hb (by decide)
    | undefined => exact absurd hb (by decide)
    | nan => exact absurd hod (by decide)
    | bool b => exact absurd hod (by simp [nullishOrNum])
    | str s => exact absurd hod (by simp [nullishOrNum])
    | arr l => exact absurd hod (by simp [nullishOrNum])
    | obj fs => exact absurd hod (by simp [nullishOrNum])
  · rw [if_neg hs]
    exact ⟨false, rfl, fun hb => Bool.noConfusion hb⟩

theorem lastOdometerLoopJs_skip {n : String} {e : JsValue}
    (hf : entryMatchesVehicleJs n e = .ok false) (history : List JsValue) :
    lastOdometerLoopJs n (e :: history) = lastOdometerLoopJs n history := by
  simp only [lastOdometerLoopJs, hf]

theorem filterJs_skip {p : JsValue → Except String Bool} {e : JsValue}
    (hf : p e = .ok false) (history : List JsValue) :
    filterJs p (e :: history) = filterJs p history := by
  simp only [filterJs, hf]
  split
  · next m heq => exact heq.symm
  · next t heq => exact heq.symm

theorem lastOdometerLoopJs_total {n : String} :
    ∀ history : List JsValue, history.all entryOkJs = true →
      ∃ v, lastOdometerLoopJs n history = .ok v ∧
        (v = JsValue.null ∨ ∃ q, v = JsValue.num q) := by
  intro history
  induction history with
  | nil => exact fun _ => ⟨.null, rfl, Or.inl rfl⟩
  | cons e rest ih =>
    intro hall
    simp only [List.all_cons, Bool.and_eq_true] at hall
    obtain ⟨he, hrest⟩ := hall
    obtain ⟨b, hb, hbq⟩ := entryMatchesVehicleJs_ok n he
    cases b with
    | true =>
      obtain ⟨q, hq⟩ := hbq rfl
      refine ⟨JsValue.num q, ?_, Or.inr ⟨q, rfl⟩⟩
      unfold lastOdometerLoopJs
      rw [hb]
      exact hq
    | false =>
      obtain ⟨v, hv, hvor⟩ := ih hrest
      refine ⟨v, ?_, hvor⟩
      rw [lastOdometerLoopJs_skip hb]
      exact hv

theorem filterJs_total {n : String} :
    ∀ history : List JsValue, history.all entryOkJs = true →
      ∃ l, filterJs (entryMatchesVehicleJs n) history = .ok l ∧
        ∀ e ∈ l, entryOkJs e = true ∧ entryMatchesVehicleJs n e = .ok true := by
  intro history
  induction history with
  | nil => exact fun _ => ⟨[], rfl, fun e he => absurd he (List.not_mem_nil e)⟩
  | cons e rest ih =>
    intro hall
    simp only [List.all_cons, Bool.and_eq_true] at hall
    obtain ⟨he, hrest⟩ := hall
    obtain ⟨l, hl, hmem⟩ := ih hrest
    obtain ⟨b, hb, _⟩ := entryMatchesVehicleJs_ok n he
    cases b with
    | true =>
      refine ⟨e :: l, ?_, ?_⟩
      · simp [filterJs, hb, hl]
      · intro x hx
        rcases List.mem_cons.mp hx with rfl | hx'
        · exact ⟨he, hb⟩
        · exact hmem x hx'
    | false =>
      refine ⟨l, ?_, hmem⟩
      rw [filterJs_skip hb]
      exact hl

theorem mapFieldJs_total {n : String} :
    ∀ l : List JsValue,
      (∀ e ∈ l, entryOkJs e = true ∧ entryMatchesVehicleJs n e = .ok true) →
      ∃ rs, mapFieldJs "odometerCurrent" l = .ok rs ∧ rs.all isNumJs = true := by
  intro l
  induction l with
  | nil => exact fun _ => ⟨[], rfl, rfl⟩
  | cons e rest ih =>
    intro hmem
    obtain ⟨he, hmatch⟩ := hmem e (List.mem_cons_self e rest)
    obtain ⟨b, hb, hbq⟩ := entryMatchesVehicleJs_ok n he
    rw [hb] at hmatch
    have hbtrue : b = true := Except.ok.inj hmatch
    obtain ⟨q, hq⟩ := hbq hbtrue
    obtain ⟨rs, hrs, hall⟩ := ih (fun x hx => hmem x (List.mem_cons_of_mem e hx))
    refine ⟨JsValue.num q :: rs, ?_, ?_⟩
    · unfold mapFieldJs
      rw [hq, hrs]
    · simp [List.all_cons, isNumJs, hall]

theorem isNumJs_of_jsGtZero {v : JsValue} (h : jsGtZero v = true) :
    isNumJs v = true := by
  cases v <;> simp_all [jsGtZero, isNumJs]

theorem positiveDiffsJs_all_num : ∀ l : List JsValue,
    (positiveDiffsJs l).all isNumJs = true := by
  intro l
  induction l with
  | nil => rfl
  | cons a tail ih =>
    cases tail with
    | nil => rfl
    | cons b rest =>
      simp only [positiveDiffsJs]
      by_cases h : jsGtZero (jsSub a b) = true
      · rw [if_pos h]
        simp only [List.all_cons, Bool.and_eq_true]
        exact ⟨isNumJs_of_jsGtZero h, ih⟩
      · rw [if_neg h]
        exact ih

theorem isNumJs_foldl_jsAdd : ∀ (l : List JsValue) (acc : JsValue),
    l.all isNumJs = true → isNumJs acc = true →
    isNumJs (l.foldl jsAdd acc) = true := by
  intro l
  induction l with
  | nil => exact fun acc _ hacc => hacc
  | cons a tail ih =>
    intro acc hall hacc
    simp only [List.all_cons, Bool.and_eq_true] at hall
    obtain ⟨ha, htail⟩ := hall
    rw [List.foldl_cons]
    apply ih _ htail
    cases acc with
    | num x =>
      cases a with
      | num y => simp [jsAdd, jsToNumber, isNumJs]
      | null => exact absurd ha (by decide)
      | undefined => exact absurd ha (by decide)
      | nan => exact absurd ha (by decide)
      | bool b => exact absurd ha (by simp [isNumJs])
      | str s => exact absurd ha (by simp [isNumJs])
      | arr l2 => exact absurd ha (by simp [isNumJs])
      | obj fs => exact absurd ha (by simp [isNumJs])
    | null => exact absurd hacc (by decide)
    | undefined => exact absurd hacc (by decide)
    | nan => exact absurd hacc (by decide)
    | bool b => exact absurd hacc (by simp [isNumJs])
    | str s => exact absurd hacc (by simp [isNumJs])
    | arr l2 => exact absurd hacc (by simp [isNumJs])
    | obj fs => exact absurd hacc (by simp [isNumJs])

theorem getAverageDistanceForVehicleJs_total (history : List JsValue)
    (vehicleReg : String) (hall : history.all entryOkJs = true) :
    ∃ v, getAverageDistanceForVehicleJs history vehicleReg = .ok v ∧
      (v = JsValue.null ∨ ∃ q, v = JsValue.num q) := by
  obtain ⟨l, hl, hmem⟩ := filterJs_total history hall
  obtain ⟨rs, hrs, hallnum⟩ := mapFieldJs_total l hmem
  unfold getAverageDistanceForVehicleJs
  dsimp only
  rw [hl]
  dsimp only
  rw [hrs]
  dsimp only
  by_cases hlen : rs.length < 2
  · rw [if_pos hlen]
    exact ⟨.null, rfl, Or.inl rfl⟩
  · rw [if_neg hlen]
    by_cases hd : (positiveDiffsJs rs).length = 0
    · rw [if_pos hd]
      exact ⟨.null, rfl, Or.inl rfl⟩
    · rw [if_neg hd]
      have hsum : isNumJs (jsSumJs (positiveDiffsJs rs)) = true :=
        isNumJs_foldl_jsAdd _ _ (positiveDiffsJs_all_num rs) rfl
      have hlenq : ((positiveDiffsJs rs).length : ℚ) ≠ 0 := by
        exact_mod_cast hd
      obtain ⟨x, hx⟩ : ∃ x, jsSumJs (positiveDiffsJs rs) = JsValue.num x := by
        cases hs : jsSumJs (positiveDiffsJs rs) with
        | num x => exact ⟨x, rfl⟩
        | null => rw [hs] at hsum; exact absurd hsum (by decide)
        | undefined => rw [hs] at hsum; exact absurd hsum (by decide)
        | nan => rw [hs] at hsum; exact absurd hsum (by decide)
        | bool b => rw [hs] at hsum; exact absurd hsum (by simp [isNumJs])
        | str s => rw [hs] at hsum; exact absurd hsum (by simp [isNumJs])
        | arr l2 => rw [hs] at hsum; exact absurd hsum (by simp [isNumJs])
        | obj fs => rw [hs] at hsum; exact absurd hsum (by simp [isNumJs])
      rw [hx]
      refine ⟨JsValue.num
        (((jsRound (x / ((positiveDiffsJs rs).length : ℚ))) : ℤ) : ℚ),
        ?_, Or.inr ⟨_, rfl⟩⟩
      simp [jsDiv, jsToNumber, hlenq, jsMathRound]

theorem entryMatchesVehicleJs_false_of_nullish_vehicleReg {e vr : JsValue}
    (n : String) (hvr : getFieldJs e "vehicleReg" = .ok vr)
    (hnull : jsNonNullish vr = false) :
    entryMatchesVehicleJs n e = .ok false := by
  unfold entryMatchesVehicleJs
  rw [hvr]
  cases vr with
  | null => simp [optChainNormalize, jsStrictEqStr]
  | undefined => simp [optChainNormalize, jsStrictEqStr]
  | nan => exact absurd hnull (by decide)
  | bool b => exact absurd hnull (by simp [jsNonNullish])
  | num q => exact absurd hnull (by simp [jsNonNullish])
  | str s => exact absurd hnull (by simp [jsNonNullish])
  | arr l => exact absurd hnull (by simp [jsNonNullish])
  | obj fs => exact absurd hnull (by simp [jsNonNullish])

theorem entryMatchesVehicleJs_false_of_nullish_odometer {e odv : JsValue}
    (n : String) (he : entryOkJs e = true)
    (hod : getFieldJs e "odometerCurrent" = .ok odv)
    (hnull : jsNonNullish odv = false) :
    entryMatchesVehicleJs n e = .ok false := by
  unfold entryOkJs at he
  simp only [Bool.and_eq_true] at he
  obtain ⟨⟨hnn, hvr⟩, _⟩ := he
  obtain ⟨vr, hvreq⟩ := getFieldJs_ok_of_nonNullish "vehicleReg" hnn
  unfold fieldSat at hvr
  rw [hvreq] at hvr
  unfold entryMatchesVehicleJs
  rw [hvreq]
  cases vr with
  | null => simp [optChainNormalize, jsStrictEqStr]
  | undefined => simp [optChainNormalize, jsStrictEqStr]
  | str s =>
    by_cases hs : jsStrictEqStr (JsValue.str (normalizeReg s)) n = true
    · simp only [optChainNormalize]
      rw [if_pos hs, hod]
      dsimp only
      rw [hnull]
    · simp only [optChainNormalize]
      rw [if_neg hs]
  | nan => exact absurd hvr (by decide)
  | bool b => exact absurd hvr (by simp [nullishOrStr])
  | num q => exact absurd hvr (by simp [nullishOrStr])
  | arr l => exact absurd hvr (by simp [nullishOrStr])
  | obj fs => exact absurd hvr (by simp [nullishOrStr])

theorem getLastOdometerForVehicleJs_skip {e : JsValue}
    (history : List JsValue) (vehicleReg : String)
    (hf : entryMatchesVehicleJs (normalizeReg vehicleReg) e = .ok false) :
    getLastOdometerForVehicleJs (e :: history) vehicleReg
      = getLastOdometerForVehicleJs history vehicleReg := by
  unfold getLastOdometerForVehicleJs
  exact lastOdometerLoopJs_skip hf history

theorem getAverageDistanceForVehicleJs_skip {e : JsValue}
    (history : List JsValue) (vehicleReg : String)
    (hf : entryMatchesVehicleJs (normalizeReg vehicleReg) e = .ok false) :
    getAverageDistanceForVehicleJs (e :: history) vehicleReg
      = getAverageDistanceForVehicleJs history vehicleReg := by
  unfold getAverageDistanceForVehicleJs
  dsimp only
  rw [filterJs_skip hf]

/-- A persisted entry whose `vehicleReg` is the number `42` — valid JSON, so
`getReceiptHistory` hands it to the metric functions unvalidated. -/
def badVehicleRegHistory : List JsValue :=
  [JsValue.obj [("vehicleReg", JsValue.num 42),
                ("odometerCurrent", JsValue.num 45230)]]

/-- Counterexample to **C10** as stated: on a stored entry whose `vehicleReg`
is a number, optional chaining does not help — `(42)?.trim` is `undefined`
and calling it throws — so both metric functions throw a `TypeError` instead
of returning a numeric or null result. -/
theorem C10_metrics_totality_counterexample :
    getLastOdometerForVehicleJs badVehicleRegHistory "SAB 1234"
      = Except.error "TypeError: trim is not a function" ∧
    getAverageDistanceForVehicleJs badVehicleRegHistory "SAB 1234"
      = Except.error "TypeError: trim is not a function" :=
  ⟨rfl, rfl⟩

/-- **C10** (amended): the metric functions are total — returning a number or
the "no data" `null`, never throwing — over arbitrary unvalidated history
entries *provided* each entry is non-nullish with `vehicleReg` absent, null
or a string and `odometerCurrent` absent, null or a number; an entry whose
`vehicleReg` is missing or null is skipped by both functions, and so is an
entry (of that well-behaved shape) whose `odometerCurrent` is missing or
null. -/
theorem C10_metrics_totality :
    (∀ (history : List JsValue) (vehicleReg : String),
        history.all entryOkJs = true →
        (∃ v, getLastOdometerForVehicleJs history vehicleReg = .ok v ∧
            (v = JsValue.null ∨ ∃ q, v = JsValue.num q)) ∧
        (∃ v, getAverageDistanceForVehicleJs history vehicleReg = .ok v ∧
            (v = JsValue.null ∨ ∃ q, v = JsValue.num q))) ∧
    (∀ (history : List JsValue) (vehicleReg : String) (e vr : JsValue),
        getFieldJs e "vehicleReg" = .ok vr → jsNonNullish vr = false →
        getLastOdometerForVehicleJs (e :: history) vehicleReg
          = getLastOdometerForVehicleJs history vehicleReg ∧
        getAverageDistanceForVehicleJs (e :: history) vehicleReg
          = getAverageDistanceForVehicleJs history vehicleReg) ∧
    (∀ (history : List JsValue) (vehicleReg : String) (e odv : JsValue),
        entryOkJs e = true →
        getFieldJs e "odometerCurrent" = .ok odv → jsNonNullish odv = false →
        getLastOdometerForVehicleJs (e :: history) vehicleReg
          = getLastOdometerForVehicleJs history vehicleReg ∧
        getAverageDistanceForVehicleJs (e :: history) vehicleReg
          = getAverageDistanceForVehicleJs history vehicleReg) := by
  refine ⟨?_, ?_, ?_⟩
  · intro history vehicleReg hall
    exact ⟨lastOdometerLoopJs_total history hall,
      getAverageDistanceForVehicleJs_total history vehicleReg hall⟩
  · intro history vehicleReg e vr hvr hnull
    have hf := entryMatchesVehicleJs_false_of_nullish_vehicleReg
      (normalizeReg vehicleReg) hvr hnull
    exact ⟨getLastOdometerForVehicleJs_skip history vehicleReg hf,
      getAverageDistanceForVehicleJs_skip history vehicleReg hf⟩
  · intro history vehicleReg e odv he hod hnull
    have hf := entryMatchesVehicleJs_false_of_nullish_odometer
      (normalizeReg vehicleReg) he hod hnull
    exact ⟨getLastOdometerForVehicleJs_skip history vehicleReg hf,
      getAverageDistanceForVehicleJs_skip history vehicleReg hf⟩

/-- A partially malformed but well-behaved stored history: one entry lacking
`vehicleReg` entirely, one with a null odometer, one complete. -/
def sampleJsHistory : List JsValue :=
  [JsValue.obj [("odometerCurrent", JsValue.num 99)],
   JsValue.obj [("vehicleReg", JsValue.str "SAB 1234"),
                ("odometerCurrent", JsValue.null)],
   JsValue.obj [("vehicleReg", JsValue.str "SAB 1234"),
                ("odometerCurrent", JsValue.num 45230)]]

/-- Witness for **C10**: the concrete malformed-but-well-behaved history
satisfies the typing hypothesis and both functions return without
throwing. -/
theorem C10_metrics_totality_witness :
    sampleJsHistory.all entryOkJs = true ∧
    (∃ v, getLastOdometerForVehicleJs sampleJsHistory "SAB 1234" = .ok v ∧
        (v = JsValue.null ∨ ∃ q, v = JsValue.num q)) ∧
    (∃ v, getAverageDistanceForVehicleJs sampleJsHistory "SAB 1234" = .ok v ∧
        (v = JsValue.null ∨ ∃ q, v = JsValue.num q)) :=
  ⟨rfl,
    (C10_metrics_totality.1 sampleJsHistory "SAB 1234" rfl).1,
    (C10_metrics_totality.1 sampleJsHistory "SAB 1234" rfl).2⟩

end PolLocator
